import Mathlib

/-!
Verification of the tabular analytics query engine of this repository:
the "/sales" endpoint of src/backend/app.py.  The endpoint loads a table of
sales records, filters it by an optional store id and optional inclusive date
bounds, and dispatches on a "view" parameter to one of five aggregations
(time_series, monthly, by_dept, moving_avg, mom_pct), all built on pandas
"groupby(...)['Weekly_Sales'].sum()", which emits one row per distinct key in
ascending key order.

Modelling choices: numeric sales amounts are rationals (summation is treated
as exact, as the design document does); a pandas datetime is a calendar date
(year, month, day) compared chronologically; a store/dept identifier is a
tagged integer-or-string value, mirroring the dynamic typing of the CSV
columns; a Python exception escaping the Flask handler (a 500 response) is
"SalesError.serverFault", while the explicit "jsonify(error), 400" path is
"SalesError.badRequest".  The month-over-month percent change uses pandas
"pct_change().fillna(0)*100": a division with zero previous total and nonzero
current total produces a float infinity, serialized by "to_json" as null; that
non-finite outcome is modelled as "none" in an "Option" pct field.
-/

/-- A calendar date at day granularity, as parsed from the CSV "Date" column. -/
structure Date where
  year : Nat
  month : Nat
  day : Nat
deriving DecidableEq, Repr

/-- Chronological (year, month, day)-lexicographic comparison of dates; this is
the order pandas uses on a datetime column. -/
def dateLeB (a b : Date) : Bool :=
  decide (a.year < b.year) ||
    (decide (a.year = b.year) &&
      (decide (a.month < b.month) ||
        (decide (a.month = b.month) && decide (a.day ≤ b.day))))

/-- A store or department identifier: the CSV column is dynamically typed, so a
value is either an integer or a string. -/
inductive Ident where
  | int (n : Int)
  | str (s : String)
deriving DecidableEq, Repr

/-- Ascending order on identifiers: numeric on integers, lexicographic on
strings (integers sort before strings, a case a single pandas column never
mixes). -/
def Ident.leB : Ident → Ident → Bool
  | .int m, .int n => decide (m ≤ n)
  | .str a, .str b => decide (a ≤ b)
  | .int _, .str _ => true
  | .str _, .int _ => false

/-- Stringification of an identifier, as performed by "astype(str)". -/
def Ident.pyStr : Ident → String
  | .int n => toString n
  | .str s => s

/-- Elementwise pandas comparison of the dynamically typed Store column with an
integer: a string cell never equals an integer. -/
def Ident.eqIntB : Ident → Int → Bool
  | .int m, v => decide (m = v)
  | .str _, _ => false

/-- Ascending order on (year, month) pairs, the grouping key of the monthly
views; lexicographic on the pair, which is chronological. -/
def ymLeB (a b : Nat × Nat) : Bool :=
  decide (a.1 < b.1) || (decide (a.1 = b.1) && decide (a.2 ≤ b.2))

/-- One row of the loaded sales table. -/
structure Record where
  store : Ident
  dept : Ident
  date : Date
  weekly_sales : ℚ
deriving DecidableEq, Repr

/-- The flat query parameters of a "/sales" request ("end" is a reserved word,
hence the field name "dateEnd"). -/
structure Args where
  store : Option String
  view : Option String
  start : Option String
  dateEnd : Option String
  window : Option String
deriving DecidableEq, Repr

/-- One emitted output row; the shape depends on the requested view. -/
inductive Row where
  | dateRow (date : Date) (value : ℚ)
  | ymRow (ym : Nat × Nat) (value : ℚ)
  | deptRow (dept : Ident) (value : ℚ)
  | pctRow (ym : Nat × Nat) (pct : Option ℚ)
deriving DecidableEq, Repr

/-- How a "/sales" request can fail: "badRequest" is the explicit
"jsonify(error), 400" path of app.py line 82; "serverFault" is a Python
exception escaping the handler, which Flask surfaces as a 500 response. -/
inductive SalesError where
  | badRequest (msg : String)
  | serverFault (msg : String)
deriving DecidableEq, Repr

/-- Whitespace characters stripped by Python "int()". -/
def isSpaceChar (c : Char) : Bool :=
  decide (c = ' ') || decide (c = '\t') || decide (c = '\n') || decide (c = '\r')

/-- Strip leading and trailing whitespace from a character list. -/
def trimChars (cs : List Char) : List Char :=
  ((cs.dropWhile isSpaceChar).reverse.dropWhile isSpaceChar).reverse

/-- Value of a list of decimal digit characters. -/
def digitsToNat (cs : List Char) : Nat :=
  cs.foldl (fun a c => a * 10 + (c.toNat - 48)) 0

/-- Python "int(s)" on a string: strip whitespace, allow one leading sign, then
require at least one decimal digit; "none" models a raised ValueError. -/
def pyInt (s : String) : Option Int :=
  let cs := trimChars s.data
  let signDigits : Int × List Char :=
    match cs with
    | '-' :: rest => (-1, rest)
    | '+' :: rest => (1, rest)
    | _ => (1, cs)
  if signDigits.2.length > 0 && signDigits.2.all Char.isDigit then
    some (signDigits.1 * (digitsToNat signDigits.2 : Int))
  else
    none

/-- Split a character list on the dash separator of an ISO date string. -/
def splitDash : List Char → List (List Char)
  | [] => [[]]
  | c :: rest =>
    let r := splitDash rest
    if c = '-' then [] :: r
    else
      match r with
      | g :: gs => (c :: g) :: gs
      | [] => [[c]]

/-- Numeric value of a nonempty all-digit character group. -/
def charsToNat : List Char → Option Nat
  | cs => if cs.length > 0 && cs.all Char.isDigit then some (digitsToNat cs) else none

/-- Parsing of an ISO-8601 "YYYY-MM-DD" bound string into a calendar date, as
pandas does before comparing it with the datetime column; "none" models the
exception pandas raises on a malformed bound. -/
def parseDate (s : String) : Option Date :=
  match splitDash s.data with
  | [ys, ms, ds] =>
    match charsToNat ys, charsToNat ms, charsToNat ds with
    | some y, some m, some d =>
      if 1 ≤ m && m ≤ 12 && 1 ≤ d && d ≤ 31 then some ⟨y, m, d⟩ else none
    | _, _, _ => none
  | _ => none

/-- The ordering relation used when sorting grouped keys, as a proposition. -/
def keyLeProp {κ : Type} (leB : κ → κ → Bool) : κ → κ → Prop :=
  fun a b => leB a b = true

instance {κ : Type} (leB : κ → κ → Bool) : DecidableRel (keyLeProp leB) :=
  fun a b => inferInstanceAs (Decidable (leB a b = true))

/-- The pandas primitive "groupby(key)['Weekly_Sales'].sum()": one output pair
per distinct key of the input, in ascending key order, carrying the sum of the
values of the rows with that key. -/
def groupSum {α κ : Type} [DecidableEq κ] (leB : κ → κ → Bool)
    (key : α → κ) (val : α → ℚ) (t : List α) : List (κ × ℚ) :=
  (List.insertionSort (keyLeProp leB) ((t.map key).dedup)).map
    (fun k => (k, ((t.filter (fun r => decide (key r = k))).map val).sum))

/-- The time_series view (app.py lines 56-60): weekly sales summed per date. -/
def timeSeries (t : List Record) : List (Date × ℚ) :=
  groupSum dateLeB (fun r => r.date) (fun r => r.weekly_sales) t

/-- The monthly view (app.py lines 61-65): weekly sales summed per calendar
(year, month). -/
def monthly (t : List Record) : List ((Nat × Nat) × ℚ) :=
  groupSum ymLeB (fun r => (r.date.year, r.date.month)) (fun r => r.weekly_sales) t

/-- The by_dept view (app.py lines 66-68): weekly sales summed per department. -/
def byDept (t : List Record) : List (Ident × ℚ) :=
  groupSum Ident.leB (fun r => r.dept) (fun r => r.weekly_sales) t

/-- The pandas "rolling(window=w, min_periods=1).mean()" over a series: at
position i, the mean of the trailing window of the last min(w, i+1) values. -/
def rollingMean (w : Nat) (xs : List ℚ) : List ℚ :=
  (List.range xs.length).map (fun i =>
    ((xs.take (i + 1)).drop (i + 1 - w)).sum
      / ((((xs.take (i + 1)).drop (i + 1 - w)).length : Nat) : ℚ))

/-- The moving_avg view (app.py lines 69-74): the per-date totals of the
time_series aggregation, replaced by their trailing rolling mean. -/
def movingAvg (w : Nat) (t : List Record) : List (Date × ℚ) :=
  ((timeSeries t).map Prod.fst).zip (rollingMean w ((timeSeries t).map Prod.snd))

/-- The pandas "pct_change().fillna(0)*100" over a series of totals: the first
entry is NaN filled with 0; a later entry is cur/prev - 1 scaled by 100 when
the previous total is nonzero; a zero previous total yields NaN (filled with 0)
when the current total is also zero and a float infinity otherwise, which
"to_json" serializes as null and which is modelled here as "none". -/
def pctChangeFill (xs : List ℚ) : List (Option ℚ) :=
  (List.range xs.length).map (fun i =>
    match i with
    | 0 => some 0
    | j + 1 =>
      if xs.getD j 0 = 0 then (if xs.getD (j + 1) 0 = 0 then some 0 else none)
      else some ((xs.getD (j + 1) 0 / xs.getD j 0 - 1) * 100))

/-- The mom_pct view (app.py lines 75-80): the monthly totals replaced by their
month-over-month percent change. -/
def momPct (t : List Record) : List ((Nat × Nat) × Option ℚ) :=
  ((monthly t).map Prod.fst).zip (pctChangeFill ((monthly t).map Prod.snd))

/-- The store filter of app.py lines 43-49: if the filter value parses as an
integer the Store column is compared with that integer (a string-typed store id
never matches), otherwise the stringified column is compared with the raw
filter value. -/
def applyStoreFilter (df : List Record) (store : String) : List Record :=
  match pyInt store with
  | some v => df.filter (fun r => Ident.eqIntB r.store v)
  | none => df.filter (fun r => decide (r.store.pyStr = store))

/-- Store stage of the filter: "if store:" skips the filter for an absent or
empty parameter. -/
def storeStage (df : List Record) (store : Option String) : List Record :=
  match store with
  | none => df
  | some s => if s = "" then df else applyStoreFilter df s

/-- Lower date bound stage (app.py lines 51-52): "if start:" skips absent or
empty bounds; a malformed bound raises inside pandas. -/
def startStage (q : List Record) (startp : Option String) :
    Except SalesError (List Record) :=
  match startp with
  | none => Except.ok q
  | some s =>
    if s = "" then Except.ok q
    else
      match parseDate s with
      | some d => Except.ok (q.filter (fun r => dateLeB d r.date))
      | none => Except.error (SalesError.serverFault "could not parse start bound")

/-- Upper date bound stage (app.py lines 53-54). -/
def endStage (q : List Record) (endp : Option String) :
    Except SalesError (List Record) :=
  match endp with
  | none => Except.ok q
  | some s =>
    if s = "" then Except.ok q
    else
      match parseDate s with
      | some d => Except.ok (q.filter (fun r => dateLeB r.date d))
      | none => Except.error (SalesError.serverFault "could not parse end bound")

/-- The whole filter stage of app.py lines 42-54: store filter, then lower
bound, then upper bound. -/
def filterStage (df : List Record) (store startp endp : Option String) :
    Except SalesError (List Record) :=
  match startStage (storeStage df store) startp with
  | Except.error e => Except.error e
  | Except.ok q => endStage q endp

/-- The view dispatch of app.py lines 56-82.  The rolling call of the
moving_avg branch validates its window: pandas rejects a window smaller than
min_periods = 1 with a ValueError, surfaced as a server fault. -/
def dispatchView (view : String) (window : Int) (q : List Record) :
    Except SalesError (List Row) :=
  if view = "time_series" then
    Except.ok ((timeSeries q).map (fun p => Row.dateRow p.1 p.2))
  else if view = "monthly" then
    Except.ok ((monthly q).map (fun p => Row.ymRow p.1 p.2))
  else if view = "by_dept" then
    Except.ok ((byDept q).map (fun p => Row.deptRow p.1 p.2))
  else if view = "moving_avg" then
    if window < 1 then
      Except.error (SalesError.serverFault "min_periods 1 must be less than or equal to window")
    else
      Except.ok ((movingAvg window.toNat q).map (fun p => Row.dateRow p.1 p.2))
  else if view = "mom_pct" then
    Except.ok ((momPct q).map (fun p => Row.pctRow p.1 p.2))
  else
    Except.error (SalesError.badRequest "unknown view")

/-- The "/sales" handler (app.py lines 33-82) on an already loaded table: the
view parameter defaults to "time_series" and the window parameter to "7"; the
window string is converted by "int(...)" before anything else, so a malformed
window raises; then the filter stages run and the view is dispatched. -/
def sales (df : List Record) (a : Args) : Except SalesError (List Row) :=
  match pyInt (a.window.getD "7") with
  | none => Except.error (SalesError.serverFault "invalid literal for int with base 10")
  | some window =>
    match filterStage df a.store a.start a.dateEnd with
    | Except.error e => Except.error e
    | Except.ok q => dispatchView (a.view.getD "time_series") window q

/-- The five view names the dispatch recognizes. -/
def knownView (v : String) : Bool :=
  v == "time_series" || v == "monthly" || v == "by_dept" ||
    v == "moving_avg" || v == "mom_pct"

/-- The effective date bound a request parameter denotes: absent or empty means
no bound, otherwise the parsed ISO date. -/
def boundOf : Option String → Option Date
  | none => none
  | some s => if s = "" then none else parseDate s

/-- Whether a record satisfies an effective lower date bound. -/
def lowerOkB : Option Date → Record → Bool
  | none, _ => true
  | some d, r => dateLeB d r.date

/-- Whether a record satisfies an effective upper date bound. -/
def upperOkB : Option Date → Record → Bool
  | none, _ => true
  | some d, r => dateLeB r.date d

/-- A date request parameter that does not make pandas raise: absent, empty, or
well formed. -/
def dateParamOk : Option String → Bool
  | none => true
  | some s => s == "" || (parseDate s).isSome

/-- Interpretation of a store id as an integer.  This follows the design
document's wording for store matching ("compare numerically against the
record's store id interpreted as an integer"), for comparison against the
source's filter: a string-typed id that parses as an integer is interpreted
as that integer. -/
def Ident.asInt : Ident → Option Int
  | .int n => some n
  | .str s => pyInt s

/-- The store-matching predicate as the design document words it (4.1): an
integer-parsing filter value is compared numerically against the record's
store id interpreted as an integer; a non-parsing one is compared as a
case-sensitive string against the stringified id. -/
def storeMatchesSpec (rid : Ident) (s : String) : Bool :=
  match pyInt s with
  | some n => rid.asInt == some n
  | none => rid.pyStr == s

/-- The three-record scenario table of the design document's testable
properties section. -/
def wtab : List Record :=
  [⟨Ident.int 1, Ident.str "A", ⟨2024, 1, 1⟩, 100⟩,
   ⟨Ident.int 1, Ident.str "A", ⟨2024, 1, 8⟩, 200⟩,
   ⟨Ident.int 2, Ident.str "B", ⟨2024, 1, 1⟩, 50⟩]

/-- A table whose first month totals exactly zero (a return cancels a sale)
while the second month is nonzero: the degenerate input of the mom_pct
percent-change division. -/
def c2tab : List Record :=
  [⟨Ident.int 1, Ident.str "A", ⟨2024, 1, 1⟩, 5⟩,
   ⟨Ident.int 1, Ident.str "A", ⟨2024, 1, 8⟩, -5⟩,
   ⟨Ident.int 1, Ident.str "A", ⟨2024, 2, 1⟩, 100⟩]

/-- A two-month table with nonzero totals in both months. -/
def wtab2 : List Record :=
  [⟨Ident.int 1, Ident.str "A", ⟨2024, 1, 1⟩, 100⟩,
   ⟨Ident.int 1, Ident.str "A", ⟨2024, 2, 1⟩, 300⟩]

/-- A table whose single record has a string-typed store id consisting of
digits. -/
def c4tab : List Record :=
  [⟨Ident.str "7", Ident.str "A", ⟨2024, 1, 1⟩, 1⟩]

/-! ## Order properties of the key comparisons -/

lemma dateLeB_total (a b : Date) : dateLeB a b = true ∨ dateLeB b a = true := by
  simp only [dateLeB, Bool.or_eq_true, Bool.and_eq_true, decide_eq_true_eq]
  omega

lemma dateLeB_trans (a b c : Date) :
    dateLeB a b = true → dateLeB b c = true → dateLeB a c = true := by
  simp only [dateLeB, Bool.or_eq_true, Bool.and_eq_true, decide_eq_true_eq]
  omega

lemma ymLeB_total (a b : Nat × Nat) : ymLeB a b = true ∨ ymLeB b a = true := by
  simp only [ymLeB, Bool.or_eq_true, Bool.and_eq_true, decide_eq_true_eq]
  omega

lemma ymLeB_trans (a b c : Nat × Nat) :
    ymLeB a b = true → ymLeB b c = true → ymLeB a c = true := by
  simp only [ymLeB, Bool.or_eq_true, Bool.and_eq_true, decide_eq_true_eq]
  omega

lemma identLeB_total (a b : Ident) : Ident.leB a b = true ∨ Ident.leB b a = true := by
  cases a with
  | int m =>
    cases b with
    | int n => simp only [Ident.leB, decide_eq_true_eq]; omega
    | str s => left; rfl
  | str s =>
    cases b with
    | int n => right; rfl
    | str u => simp only [Ident.leB, decide_eq_true_eq]; exact le_total s u

lemma identLeB_trans (a b c : Ident) :
    Ident.leB a b = true → Ident.leB b c = true → Ident.leB a c = true := by
  cases a <;> cases b <;> cases c <;>
    simp only [Ident.leB, decide_eq_true_eq] <;>
    first
      | omega
      | (intro h1 h2; exact le_trans h1 h2)
      | (intro h1 h2; exact h2)
      | (intro h1 h2; exact h1)
      | (intro h1 h2; trivial)

/-! ## Generic facts about the grouping primitive -/

lemma groupSum_pairwise {α κ : Type} [DecidableEq κ] (leB : κ → κ → Bool)
    (key : α → κ) (val : α → ℚ) (t : List α)
    (htot : ∀ a b, leB a b = true ∨ leB b a = true)
    (htr : ∀ a b c, leB a b = true → leB b c = true → leB a c = true) :
    (groupSum leB key val t).Pairwise
      (fun p q => leB p.1 q.1 = true ∧ p.1 ≠ q.1) := by
  haveI : IsTotal κ (keyLeProp leB) := ⟨htot⟩
  haveI : IsTrans κ (keyLeProp leB) := ⟨htr⟩
  unfold groupSum
  rw [List.pairwise_map]
  have hs : List.Sorted (keyLeProp leB)
      (List.insertionSort (keyLeProp leB) ((t.map key).dedup)) :=
    List.sorted_insertionSort (keyLeProp leB) ((t.map key).dedup)
  have hn : (List.insertionSort (keyLeProp leB) ((t.map key).dedup)).Nodup :=
    (List.perm_insertionSort (keyLeProp leB) ((t.map key).dedup)).nodup_iff.mpr
      (List.nodup_dedup ((t.map key)))
  exact hs.and hn

lemma sum_filter_partition {α : Type} (p : α → Bool) (val : α → ℚ) (t : List α) :
    ((t.filter p).map val).sum + ((t.filter (fun a => !p a)).map val).sum
      = (t.map val).sum := by
  have h := (List.filter_append_perm p t).map val
  have hsum := h.sum_eq
  simpa [List.map_append, List.sum_append] using hsum

lemma sum_key_partition {α κ : Type} [DecidableEq κ] (key : α → κ) (val : α → ℚ) :
    ∀ (ks : List κ) (t : List α), ks.Nodup → (∀ r ∈ t, key r ∈ ks) →
      (ks.map (fun k => ((t.filter (fun r => decide (key r = k))).map val).sum)).sum
        = (t.map val).sum := by
  intro ks
  induction ks with
  | nil =>
    intro t _ h
    cases t with
    | nil => simp
    | cons r rest => exact absurd (h r (List.mem_cons_self r rest)) (List.not_mem_nil (key r))
  | cons k ks ih =>
    intro t hnd hall
    have hk : k ∉ ks := (List.nodup_cons.mp hnd).1
    have hnd' : ks.Nodup := (List.nodup_cons.mp hnd).2
    have hstep : ∀ k' ∈ ks,
        ((t.filter (fun r => decide (key r = k'))).map val).sum
          = (((t.filter (fun r => !(decide (key r = k)))).filter
              (fun r => decide (key r = k'))).map val).sum := by
      intro k' hk'
      have hne : k' ≠ k := fun h => hk (h ▸ hk')
      rw [List.filter_filter]
      have hcong : ∀ r ∈ t,
          (decide (key r = k')) = (decide (key r = k') && !(decide (key r = k))) := by
        intro r _
        by_cases h : key r = k'
        · have hnk : ¬ (key r = k) := by rw [h]; exact hne
          simp [h, hnk, hne]
        · simp [h]
      rw [List.filter_congr hcong]
    have hih := ih (t.filter (fun r => !(decide (key r = k)))) hnd' (by
      intro r hr
      rcases List.mem_filter.mp hr with ⟨hrt, hrk⟩
      have : key r ≠ k := by
        intro hc
        simp [hc] at hrk
      rcases List.mem_cons.mp (hall r hrt) with h | h
      · exact absurd h this
      · exact h)
    calc ((k :: ks).map
            (fun k => ((t.filter (fun r => decide (key r = k))).map val).sum)).sum
        = ((t.filter (fun r => decide (key r = k))).map val).sum
            + (ks.map
                (fun k' => ((t.filter (fun r => decide (key r = k'))).map val).sum)).sum := by
          simp
      _ = ((t.filter (fun r => decide (key r = k))).map val).sum
            + (ks.map
                (fun k' => (((t.filter (fun r => !(decide (key r = k)))).filter
                    (fun r => decide (key r = k'))).map val).sum)).sum := by
          rw [List.map_congr_left hstep]
      _ = ((t.filter (fun r => decide (key r = k))).map val).sum
            + ((t.filter (fun r => !(decide (key r = k)))).map val).sum := by
          rw [hih]
      _ = (t.map val).sum := sum_filter_partition _ val t

lemma groupSum_sum {α κ : Type} [DecidableEq κ] (leB : κ → κ → Bool)
    (key : α → κ) (val : α → ℚ) (t : List α) :
    ((groupSum leB key val t).map Prod.snd).sum = (t.map val).sum := by
  unfold groupSum
  rw [List.map_map]
  have hcomp : (Prod.snd ∘ fun k =>
      (k, ((t.filter (fun r => decide (key r = k))).map val).sum))
      = (fun k => ((t.filter (fun r => decide (key r = k))).map val).sum) := rfl
  rw [hcomp]
  have hperm := (List.perm_insertionSort (keyLeProp leB) ((t.map key).dedup)).map
    (fun k => ((t.filter (fun r => decide (key r = k))).map val).sum)
  rw [hperm.sum_eq]
  exact sum_key_partition key val ((t.map key).dedup) t
    (List.nodup_dedup _)
    (fun r hr => List.mem_dedup.mpr (List.mem_map_of_mem key hr))

/-! ## Indexing helpers -/

lemma zip_getD {α β : Type} (l1 : List α) (l2 : List β) (i : Nat)
    (d1 : α) (d2 : β) (h1 : i < l1.length) (h2 : i < l2.length) :
    (l1.zip l2).getD i (d1, d2) = (l1.getD i d1, l2.getD i d2) := by
  induction l1 generalizing l2 i with
  | nil => simp at h1
  | cons a l1 ih =>
    cases l2 with
    | nil => simp at h2
    | cons b l2 =>
      cases i with
      | zero => simp [List.zip_cons_cons]
      | succ j =>
        simp only [List.zip_cons_cons, List.getD_cons_succ]
        exact ih l2 j (by simpa using h1) (by simpa using h2)

lemma rangeMap_getD {β : Type} (f : Nat → β) (n i : Nat) (d : β) (h : i < n) :
    (((List.range n).map f).getD i d) = f i := by
  rw [List.getD_eq_getElem?_getD, List.getElem?_map, List.getElem?_range h]
  rfl

lemma rollingMean_length (w : Nat) (xs : List ℚ) :
    (rollingMean w xs).length = xs.length := by
  simp [rollingMean]

lemma pctChangeFill_length (xs : List ℚ) :
    (pctChangeFill xs).length = xs.length := by
  simp [pctChangeFill]

lemma slice_eq_range_map (xs : List ℚ) (a b : Nat) (hab : a ≤ b)
    (hb : b ≤ xs.length) :
    (xs.take b).drop a = (List.range' a (b - a)).map (fun j => xs.getD j 0) := by
  apply List.ext_getElem
  · simp [List.length_drop, List.length_take, List.length_range',
      Nat.min_eq_left hb]
  · intro n h1 h2
    have hlen : ((xs.take b).drop a).length = b - a := by
      simp [List.length_drop, List.length_take, Nat.min_eq_left hb]
    have hn : n < b - a := hlen ▸ h1
    have hanb : a + n < b := by omega
    have hxs : a + n < xs.length := by omega
    have hlr : n < (List.range' a (b - a)).length := by
      simpa [List.length_range'] using hn
    rw [List.getElem_drop, List.getElem_take]
    rw [List.getElem_map]
    have hr : (List.range' a (b - a))[n] = a + n := by
      have hg := @List.getElem_range' a (b - a) 1 n hlr
      rw [hg]; ring
    rw [hr]
    rw [List.getD_eq_getElem?_getD, List.getElem?_eq_getElem hxs]
    rfl

/-! ## Pointwise descriptions of the windowed views -/

lemma zipFstSnd {κ γ : Type} (l : List (κ × γ)) :
    (l.map Prod.fst).zip (l.map Prod.snd) = l := by
  induction l with
  | nil => rfl
  | cons p l ih => simp [ih]

lemma movingAvg_getD (t : List Record) (w i : Nat) (hw : 1 ≤ w)
    (hi : i < (timeSeries t).length) :
    (movingAvg w t).getD i (⟨0, 0, 0⟩, 0) =
      (((timeSeries t).map Prod.fst).getD i ⟨0, 0, 0⟩,
       ((List.range' (i + 1 - w) ((i + 1) - (i + 1 - w))).map
           (fun j => ((timeSeries t).map Prod.snd).getD j 0)).sum
         / ((((i + 1) - (i + 1 - w) : Nat)) : ℚ)) := by
  have h1 : i < ((timeSeries t).map Prod.fst).length := by simpa using hi
  have h2 : i < (rollingMean w ((timeSeries t).map Prod.snd)).length := by
    rw [rollingMean_length]; simpa using hi
  unfold movingAvg
  rw [zip_getD _ _ _ _ _ h1 h2]
  have hlen : i < ((timeSeries t).map Prod.snd).length := by simpa using hi
  have hbody : (rollingMean w ((timeSeries t).map Prod.snd)).getD i 0 =
      ((((timeSeries t).map Prod.snd).take (i + 1)).drop (i + 1 - w)).sum
        / (((((timeSeries t).map Prod.snd).take (i + 1)).drop (i + 1 - w)).length : ℚ) := by
    unfold rollingMean
    exact rangeMap_getD _ _ _ _ hlen
  rw [hbody]
  have hslice := slice_eq_range_map ((timeSeries t).map Prod.snd) (i + 1 - w) (i + 1)
    (by omega) (by omega)
  rw [hslice]
  simp [List.length_range']

lemma momPct_getD_succ (t : List Record) (j : Nat)
    (hj : j + 1 < (monthly t).length) :
    (momPct t).getD (j + 1) ((0, 0), none) =
      (((monthly t).map Prod.fst).getD (j + 1) (0, 0),
       if ((monthly t).map Prod.snd).getD j 0 = 0 then
         (if ((monthly t).map Prod.snd).getD (j + 1) 0 = 0 then some 0 else none)
       else some ((((monthly t).map Prod.snd).getD (j + 1) 0
           / ((monthly t).map Prod.snd).getD j 0 - 1) * 100)) := by
  have h1 : j + 1 < ((monthly t).map Prod.fst).length := by simpa using hj
  have h2 : j + 1 < (pctChangeFill ((monthly t).map Prod.snd)).length := by
    rw [pctChangeFill_length]; simpa using hj
  unfold momPct
  rw [zip_getD _ _ _ _ _ h1 h2]
  have hlen : j + 1 < ((monthly t).map Prod.snd).length := by simpa using hj
  have hbody := rangeMap_getD (fun i =>
    match i with
    | 0 => (some 0 : Option ℚ)
    | j + 1 =>
      if ((monthly t).map Prod.snd).getD j 0 = 0 then
        (if ((monthly t).map Prod.snd).getD (j + 1) 0 = 0 then some 0 else none)
      else some ((((monthly t).map Prod.snd).getD (j + 1) 0
          / ((monthly t).map Prod.snd).getD j 0 - 1) * 100))
    ((monthly t).map Prod.snd).length (j + 1) none hlen
  unfold pctChangeFill
  rw [hbody]

lemma momPct_getD_zero (t : List Record) (h : 0 < (monthly t).length) :
    (momPct t).getD 0 ((0, 0), none) =
      (((monthly t).map Prod.fst).getD 0 (0, 0), some 0) := by
  have h1 : 0 < ((monthly t).map Prod.fst).length := by simpa using h
  have h2 : 0 < (pctChangeFill ((monthly t).map Prod.snd)).length := by
    rw [pctChangeFill_length]; simpa using h
  unfold momPct
  rw [zip_getD _ _ _ _ _ h1 h2]
  have hlen : 0 < ((monthly t).map Prod.snd).length := by simpa using h
  have hbody := rangeMap_getD (fun i =>
    match i with
    | 0 => (some 0 : Option ℚ)
    | j + 1 =>
      if ((monthly t).map Prod.snd).getD j 0 = 0 then
        (if ((monthly t).map Prod.snd).getD (j + 1) 0 = 0 then some 0 else none)
      else some ((((monthly t).map Prod.snd).getD (j + 1) 0
          / ((monthly t).map Prod.snd).getD j 0 - 1) * 100))
    ((monthly t).map Prod.snd).length 0 none hlen
  unfold pctChangeFill
  rw [hbody]

lemma rollingMean_one (xs : List ℚ) : rollingMean 1 xs = xs := by
  apply List.ext_getElem
  · simp [rollingMean]
  · intro n h1 h2
    have hn : n < xs.length := by simpa [rollingMean] using h2
    simp only [rollingMean]
    simp only [List.getElem_map, List.getElem_range]
    have hone : (xs.take (n + 1)).drop (n + 1 - 1) = [xs[n]] := by
      have e1 : n + 1 - 1 = n := by omega
      rw [e1, List.drop_take, List.drop_eq_getElem_cons hn]
      have e2 : n + 1 - n = 1 := by omega
      rw [e2]
      rfl
    rw [hone]
    simp

/-! ## Transfer of key ordering through zipping -/

lemma pairwise_fst_zip {κ γ : Type} (m : List (κ × ℚ)) (l2 : List γ)
    (hlen : m.length ≤ l2.length) (S : κ → κ → Prop)
    (h : m.Pairwise (fun p q => S p.1 q.1)) :
    ((m.map Prod.fst).zip l2).Pairwise (fun p q => S p.1 q.1) := by
  have hm : ((m.map Prod.fst).zip l2).map Prod.fst = m.map Prod.fst :=
    List.map_fst_zip _ _ (by simpa using hlen)
  have h1 : (m.map Prod.fst).Pairwise S := List.pairwise_map.mpr h
  have h2 : (((m.map Prod.fst).zip l2).map Prod.fst).Pairwise S := by
    rw [hm]; exact h1
  exact List.pairwise_map.mp h2

/-! ## Behaviour of the filter stages -/

lemma startStage_ok (q : List Record) (p : Option String)
    (h : dateParamOk p = true) :
    startStage q p = Except.ok (q.filter (fun r => lowerOkB (boundOf p) r)) := by
  cases p with
  | none => simp [startStage, boundOf, lowerOkB]
  | some s =>
    by_cases hs : s = ""
    · subst hs
      simp [startStage, boundOf, lowerOkB]
    · have hsome : (parseDate s).isSome = true := by
        simpa [dateParamOk, hs] using h
      rcases Option.isSome_iff_exists.mp hsome with ⟨d, hd⟩
      simp [startStage, boundOf, lowerOkB, hs, hd]

lemma endStage_ok (q : List Record) (p : Option String)
    (h : dateParamOk p = true) :
    endStage q p = Except.ok (q.filter (fun r => upperOkB (boundOf p) r)) := by
  cases p with
  | none => simp [endStage, boundOf, upperOkB]
  | some s =>
    by_cases hs : s = ""
    · subst hs
      simp [endStage, boundOf, upperOkB]
    · have hsome : (parseDate s).isSome = true := by
        simpa [dateParamOk, hs] using h
      rcases Option.isSome_iff_exists.mp hsome with ⟨d, hd⟩
      simp [endStage, boundOf, upperOkB, hs, hd]

/-! ## The five views on an empty filtered table -/

lemma timeSeries_nil : timeSeries [] = [] := rfl

lemma monthly_nil : monthly [] = [] := rfl

lemma byDept_nil : byDept [] = [] := rfl

lemma movingAvg_nil (w : Nat) : movingAvg w [] = [] := rfl

lemma momPct_nil : momPct [] = [] := rfl

lemma dispatchView_empty (v : String) (w : Int) (hv : knownView v = true)
    (hw : 1 ≤ w) :
    dispatchView v w [] = Except.ok [] := by
  have hnw : ¬ (w < 1) := by omega
  simp only [knownView, Bool.or_eq_true, beq_iff_eq] at hv
  rcases hv with ((((h | h) | h) | h) | h) <;> subst h <;>
    simp [dispatchView, timeSeries_nil, monthly_nil, byDept_nil,
      movingAvg_nil, momPct_nil, hnw]

/-! ## Membership form of the elementwise store comparison -/

lemma eqIntB_iff (x : Ident) (n : Int) :
    Ident.eqIntB x n = true ↔ x = Ident.int n := by
  cases x with
  | int m => simp [Ident.eqIntB]
  | str s => simp [Ident.eqIntB]

/-! ## Concrete evaluations of the fixtures -/

lemma monthly_c2tab : monthly c2tab = [((2024, 1), 0), ((2024, 2), 100)] := by
  norm_num [monthly, groupSum, c2tab, keyLeProp, ymLeB, List.insertionSort,
    List.orderedInsert, List.dedup]

lemma monthly_wtab2 : monthly wtab2 = [((2024, 1), 100), ((2024, 2), 300)] := by
  norm_num [monthly, groupSum, wtab2, keyLeProp, ymLeB, List.insertionSort,
    List.orderedInsert, List.dedup]

lemma momPct_c2tab : momPct c2tab = [((2024, 1), some 0), ((2024, 2), none)] := by
  rw [momPct, monthly_c2tab]
  norm_num [pctChangeFill, List.range_succ, List.getD_cons_zero,
    List.getD_cons_succ]

lemma ts_getD_pair (l : List (Date × ℚ)) (i : Nat) (h : i < l.length) :
    ((l.map Prod.fst).getD i ⟨0, 0, 0⟩, (l.map Prod.snd).getD i 0)
      = l.getD i (⟨0, 0, 0⟩, 0) := by
  rw [List.getD_eq_getElem?_getD, List.getD_eq_getElem?_getD,
    List.getD_eq_getElem?_getD, List.getElem?_map, List.getElem?_map,
    List.getElem?_eq_getElem h]
  rfl

/-! ## The claims -/

/-- C3: every grouped view (TIME_SERIES, MONTHLY, BY_DEPT, MOVING_AVG, MOM_PCT)
emits its rows sorted strictly ascending by the grouping key: chronologically
for date keys ("dateLeB") and calendar-month keys ("ymLeB"), numerically for
integer and lexically for string department keys ("Ident.leB"). -/
theorem c3_views_sorted_ascending (t : List Record) (w : Nat) :
    (timeSeries t).Pairwise (fun p q => dateLeB p.1 q.1 = true ∧ p.1 ≠ q.1) ∧
    (monthly t).Pairwise (fun p q => ymLeB p.1 q.1 = true ∧ p.1 ≠ q.1) ∧
    (byDept t).Pairwise (fun p q => Ident.leB p.1 q.1 = true ∧ p.1 ≠ q.1) ∧
    (movingAvg w t).Pairwise (fun p q => dateLeB p.1 q.1 = true ∧ p.1 ≠ q.1) ∧
    (momPct t).Pairwise (fun p q => ymLeB p.1 q.1 = true ∧ p.1 ≠ q.1) := by
  refine ⟨?_, ?_, ?_, ?_, ?_⟩
  · exact groupSum_pairwise dateLeB _ _ t dateLeB_total dateLeB_trans
  · exact groupSum_pairwise ymLeB _ _ t ymLeB_total ymLeB_trans
  · exact groupSum_pairwise Ident.leB _ _ t identLeB_total identLeB_trans
  · exact pairwise_fst_zip (timeSeries t) _
      (by simp [rollingMean_length])
      (fun a b => dateLeB a b = true ∧ a ≠ b)
      (groupSum_pairwise dateLeB _ _ t dateLeB_total dateLeB_trans)
  · exact pairwise_fst_zip (monthly t) _
      (by simp [pctChangeFill_length])
      (fun a b => ymLeB a b = true ∧ a ≠ b)
      (groupSum_pairwise ymLeB _ _ t ymLeB_total ymLeB_trans)

/-- C9: the TIME_SERIES output totals sum to the sum of weekly_sales over the
filtered input table, and the MONTHLY output totals sum to the TIME_SERIES
output totals: re-grouping preserves the total. -/
theorem c9_total_conservation (t : List Record) :
    ((timeSeries t).map Prod.snd).sum = (t.map (fun r => r.weekly_sales)).sum ∧
    ((monthly t).map Prod.snd).sum = ((timeSeries t).map Prod.snd).sum := by
  constructor
  · exact groupSum_sum dateLeB _ _ t
  · unfold monthly timeSeries
    rw [groupSum_sum, groupSum_sum]

/-- C10: a request without a view parameter does not fail and behaves exactly
like the same request with view=time_series: the handler defaults the view
parameter to "time_series". -/
theorem c10_default_view_time_series (df : List Record)
    (st sta en w : Option String) :
    sales df ⟨st, none, sta, en, w⟩ = sales df ⟨st, some "time_series", sta, en, w⟩ := rfl

/-- C8: a request whose filter stage produces an empty table flows through
every one of the five views and returns an empty output sequence without any
error. -/
theorem c8_empty_table_empty_output (df : List Record) (a : Args) (w : Int)
    (hw : pyInt (a.window.getD "7") = some w) (hw1 : 1 ≤ w)
    (hv : knownView (a.view.getD "time_series") = true)
    (hf : filterStage df a.store a.start a.dateEnd = Except.ok []) :
    sales df a = Except.ok [] := by
  unfold sales
  rw [hw, hf]
  exact dispatchView_empty _ w hv hw1

/-- Witness for C8: a store filter matching no record of the scenario table,
under the monthly view, yields an empty output. -/
theorem c8_empty_table_empty_output_witness :
    pyInt ((Args.mk (some "9") (some "monthly") none none none).window.getD "7")
        = some 7 ∧
    (1 : Int) ≤ 7 ∧
    knownView ((Args.mk (some "9") (some "monthly") none none none).view.getD
        "time_series") = true ∧
    filterStage wtab (some "9") none none = Except.ok [] ∧
    sales wtab (Args.mk (some "9") (some "monthly") none none none)
      = Except.ok [] :=
  ⟨rfl, by decide, rfl, rfl,
    c8_empty_table_empty_output wtab (Args.mk (some "9") (some "monthly") none none none)
      7 rfl (by decide) rfl rfl⟩

/-- C1: the MOVING_AVG view emits, at position i of the chronologically
grouped per-date series, the mean of the totals with indices from i+1-w
(truncated at zero) through i; in particular the first emitted value equals
its own total, a window of 1 reproduces the TIME_SERIES totals unchanged, and
an absent window parameter behaves as window=7. -/
theorem c1_moving_average (t df : List Record) (a : Args) (w i : Nat)
    (hw : 1 ≤ w) (hi : i < (timeSeries t).length) :
    (movingAvg w t).getD i (⟨0, 0, 0⟩, 0) =
      (((timeSeries t).map Prod.fst).getD i ⟨0, 0, 0⟩,
       ((List.range' (i + 1 - w) ((i + 1) - (i + 1 - w))).map
           (fun j => ((timeSeries t).map Prod.snd).getD j 0)).sum
         / ((((i + 1) - (i + 1 - w) : Nat)) : ℚ)) ∧
    (movingAvg w t).getD 0 (⟨0, 0, 0⟩, 0) = (timeSeries t).getD 0 (⟨0, 0, 0⟩, 0) ∧
    movingAvg 1 t = timeSeries t ∧
    sales df { a with window := none } = sales df { a with window := some "7" } := by
  refine ⟨movingAvg_getD t w i hw hi, ?_, ?_, rfl⟩
  · have h0 : 0 < (timeSeries t).length := Nat.lt_of_le_of_lt (Nat.zero_le i) hi
    rw [movingAvg_getD t w 0 hw h0]
    have e1 : 0 + 1 - w = 0 := by omega
    rw [e1]
    have e2 : 0 + 1 - 0 = 1 := by omega
    rw [e2]
    have e3 : List.range' 0 1 = [0] := rfl
    rw [e3]
    have e4 : (([0].map (fun j => ((timeSeries t).map Prod.snd).getD j 0)).sum)
        / (((1 : Nat)) : ℚ) = ((timeSeries t).map Prod.snd).getD 0 0 := by
      simp
    rw [e4]
    exact ts_getD_pair (timeSeries t) 0 h0
  · unfold movingAvg
    rw [rollingMean_one]
    exact zipFstSnd (timeSeries t)

/-- Witness for C1: the scenario table filtered to two dates, window 2,
position 1. -/
theorem c1_moving_average_witness :
    ((1 : Nat) ≤ 2 ∧ 1 < (timeSeries wtab).length) ∧
    ((movingAvg 2 wtab).getD 1 (⟨0, 0, 0⟩, 0) =
      (((timeSeries wtab).map Prod.fst).getD 1 ⟨0, 0, 0⟩,
       ((List.range' (1 + 1 - 2) ((1 + 1) - (1 + 1 - 2))).map
           (fun j => ((timeSeries wtab).map Prod.snd).getD j 0)).sum
         / ((((1 + 1) - (1 + 1 - 2) : Nat)) : ℚ)) ∧
     (movingAvg 2 wtab).getD 0 (⟨0, 0, 0⟩, 0) = (timeSeries wtab).getD 0 (⟨0, 0, 0⟩, 0) ∧
     movingAvg 1 wtab = timeSeries wtab ∧
     sales wtab (Args.mk none none none none none)
       = sales wtab (Args.mk none none none none (some "7"))) :=
  ⟨⟨by decide, by decide⟩,
    c1_moving_average wtab wtab (Args.mk none none none none none) 2 1
      (by decide) (by decide)⟩

/-- C2 (amended): the first emitted MOM_PCT row always has pct 0; a subsequent
row whose previous monthly total is nonzero has pct equal to
(current - previous) / previous * 100; when the previous total is zero the
row instead carries pct 0 if the current total is also zero and the null
sentinel of the unbounded float ratio otherwise. -/
theorem c2_mom_pct_change (t : List Record) (j : Nat)
    (h0 : 0 < (monthly t).length) :
    (momPct t).getD 0 ((0, 0), none)
        = (((monthly t).map Prod.fst).getD 0 (0, 0), some 0) ∧
    (j + 1 < (monthly t).length →
      ((monthly t).map Prod.snd).getD j 0 ≠ 0 →
      (momPct t).getD (j + 1) ((0, 0), none) =
        (((monthly t).map Prod.fst).getD (j + 1) (0, 0),
         some ((((monthly t).map Prod.snd).getD (j + 1) 0
             - ((monthly t).map Prod.snd).getD j 0)
           / ((monthly t).map Prod.snd).getD j 0 * 100))) ∧
    (j + 1 < (monthly t).length →
      ((monthly t).map Prod.snd).getD j 0 = 0 →
      (momPct t).getD (j + 1) ((0, 0), none) =
        (((monthly t).map Prod.fst).getD (j + 1) (0, 0),
         if ((monthly t).map Prod.snd).getD (j + 1) 0 = 0 then some 0 else none)) := by
  refine ⟨momPct_getD_zero t h0, ?_, ?_⟩
  · intro hj hnz
    have hdiv : ∀ (x y : ℚ), y ≠ 0 → x / y - 1 = (x - y) / y := by
      intro x y hy
      field_simp
    rw [momPct_getD_succ t j hj, if_neg hnz, hdiv _ _ hnz]
  · intro hj hz
    rw [momPct_getD_succ t j hj, if_pos hz]

/-- Counterexample for C2 as stated: on c2tab the first month totals 0 and the
second 100; the second emitted row carries the null sentinel of the infinite
float ratio, not a pct equal to the formula (current - previous) / previous
* 100. -/
theorem c2_mom_pct_change_cex :
    (momPct c2tab).getD 1 ((0, 0), none) = ((2024, 2), none) ∧
    (momPct c2tab).getD 1 ((0, 0), none)
      ≠ (((monthly c2tab).map Prod.fst).getD 1 (0, 0),
         some ((((monthly c2tab).map Prod.snd).getD 1 0
             - ((monthly c2tab).map Prod.snd).getD 0 0)
           / ((monthly c2tab).map Prod.snd).getD 0 0 * 100)) := by
  rw [momPct_c2tab, monthly_c2tab]
  constructor
  · rfl
  · simp

/-- Witness for C2 (amended): both months of wtab2 have nonzero totals and the
second row's pct is the percent-change formula. -/
theorem c2_mom_pct_change_witness :
    0 < (monthly wtab2).length ∧
    1 < (monthly wtab2).length ∧
    ((monthly wtab2).map Prod.snd).getD 0 0 ≠ 0 ∧
    (momPct wtab2).getD 0 ((0, 0), none)
        = (((monthly wtab2).map Prod.fst).getD 0 (0, 0), some 0) ∧
    (momPct wtab2).getD 1 ((0, 0), none) =
        (((monthly wtab2).map Prod.fst).getD 1 (0, 0),
         some ((((monthly wtab2).map Prod.snd).getD 1 0
             - ((monthly wtab2).map Prod.snd).getD 0 0)
           / ((monthly wtab2).map Prod.snd).getD 0 0 * 100)) := by
  have h0 : 0 < (monthly wtab2).length := by rw [monthly_wtab2]; decide
  have hj : 0 + 1 < (monthly wtab2).length := by rw [monthly_wtab2]; decide
  have hnz : ((monthly wtab2).map Prod.snd).getD 0 0 ≠ 0 := by
    rw [monthly_wtab2]; norm_num
  exact ⟨h0, hj, hnz, (c2_mom_pct_change wtab2 0 h0).1,
    (c2_mom_pct_change wtab2 0 h0).2.1 hj hnz⟩

/-- C7: a MOM_PCT request with a convertible window and successful filtering
always succeeds (the division never raises), and a row whose previous monthly
total is exactly zero carries a fixed conventional pct: 0 when the current
total is also zero, the null sentinel otherwise. -/
theorem c7_mom_pct_zero_previous (df : List Record) (a : Args) (w : Int)
    (q t : List Record) (j : Nat)
    (hw : pyInt (a.window.getD "7") = some w)
    (hv : a.view = some "mom_pct")
    (hf : filterStage df a.store a.start a.dateEnd = Except.ok q)
    (hj : j + 1 < (monthly t).length)
    (hz : ((monthly t).map Prod.snd).getD j 0 = 0) :
    sales df a = Except.ok ((momPct q).map (fun p => Row.pctRow p.1 p.2)) ∧
    (momPct t).getD (j + 1) ((0, 0), none) =
      (((monthly t).map Prod.fst).getD (j + 1) (0, 0),
       if ((monthly t).map Prod.snd).getD (j + 1) 0 = 0 then some 0 else none) := by
  constructor
  · unfold sales
    rw [hw, hf, hv]
    rfl
  · rw [momPct_getD_succ t j hj, if_pos hz]

/-- Witness for C7: the c2tab request under the mom_pct view, with the first
month totalling zero. -/
theorem c7_mom_pct_zero_previous_witness :
    pyInt ((Args.mk none (some "mom_pct") none none none).window.getD "7")
        = some 7 ∧
    filterStage c2tab none none none = Except.ok c2tab ∧
    1 < (monthly c2tab).length ∧
    ((monthly c2tab).map Prod.snd).getD 0 0 = 0 ∧
    sales c2tab (Args.mk none (some "mom_pct") none none none)
      = Except.ok ((momPct c2tab).map (fun p => Row.pctRow p.1 p.2)) ∧
    (momPct c2tab).getD 1 ((0, 0), none) =
      (((monthly c2tab).map Prod.fst).getD 1 (0, 0),
       if ((monthly c2tab).map Prod.snd).getD 1 0 = 0 then some 0 else none) := by
  have hj : 0 + 1 < (monthly c2tab).length := by rw [monthly_c2tab]; decide
  have hz : ((monthly c2tab).map Prod.snd).getD 0 0 = 0 := by
    rw [monthly_c2tab]; rfl
  have h := c7_mom_pct_zero_previous c2tab
    (Args.mk none (some "mom_pct") none none none) 7 c2tab c2tab 0 rfl rfl rfl hj hz
  exact ⟨rfl, rfl, hj, hz, h.1, h.2⟩

lemma filterStage_ok (df : List Record) (store startp endp : Option String)
    (hs : dateParamOk startp = true) (he : dateParamOk endp = true) :
    filterStage df store startp endp
      = Except.ok (((storeStage df store).filter
            (fun r => lowerOkB (boundOf startp) r)).filter
          (fun r => upperOkB (boundOf endp) r)) := by
  unfold filterStage
  rw [startStage_ok _ _ hs]
  exact endStage_ok _ _ he

/-- C4 (amended): for a nonempty store filter value, if the value parses as an
integer the filter keeps exactly the records whose store id is an
integer-typed id with that value (a string-typed store id never matches a
numeric filter value); if it does not parse, the filter keeps exactly the
records whose stringified store id equals the value case-sensitively. -/
theorem c4_store_filter (df : List Record) (s : String) (n : Int) (r : Record)
    (hs : s ≠ "") :
    (pyInt s = some n →
      filterStage df (some s) none none
          = Except.ok (df.filter (fun x => Ident.eqIntB x.store n)) ∧
        (r ∈ df.filter (fun x => Ident.eqIntB x.store n)
          ↔ r ∈ df ∧ r.store = Ident.int n)) ∧
    (pyInt s = none →
      filterStage df (some s) none none
          = Except.ok (df.filter (fun x => decide (x.store.pyStr = s))) ∧
        (r ∈ df.filter (fun x => decide (x.store.pyStr = s))
          ↔ r ∈ df ∧ r.store.pyStr = s)) := by
  constructor
  · intro hn
    constructor
    · simp [filterStage, startStage, endStage, storeStage, applyStoreFilter,
        hs, hn]
    · rw [List.mem_filter, eqIntB_iff]
  · intro hn
    constructor
    · simp [filterStage, startStage, endStage, storeStage, applyStoreFilter,
        hs, hn]
    · rw [List.mem_filter]
      simp

/-- Counterexample for C4 as stated: the filter value "7" parses as the
integer 7, and the single record of c4tab has the string store id "7", which
interpreted as an integer equals 7 — the design document's matching predicate
accepts it — yet the source filter compares the integer 7 against a string
cell and drops the record, returning an empty table. -/
theorem c4_store_filter_cex :
    pyInt "7" = some 7 ∧
    storeMatchesSpec (Ident.str "7") "7" = true ∧
    (c4tab.map (fun r => r.store)) = [Ident.str "7"] ∧
    filterStage c4tab (some "7") none none = Except.ok [] :=
  ⟨rfl, rfl, rfl, rfl⟩

/-- Witness for C4 (amended): an integer-parsing filter value on the scenario
table and a non-parsing one on the string-id table. -/
theorem c4_store_filter_witness :
    ("1" : String) ≠ "" ∧ pyInt "1" = some 1 ∧
    (filterStage wtab (some "1") none none
        = Except.ok (wtab.filter (fun x => Ident.eqIntB x.store 1)) ∧
      (Record.mk (Ident.int 1) (Ident.str "A") ⟨2024, 1, 1⟩ 100
          ∈ wtab.filter (fun x => Ident.eqIntB x.store 1)
        ↔ Record.mk (Ident.int 1) (Ident.str "A") ⟨2024, 1, 1⟩ 100 ∈ wtab
            ∧ (Record.mk (Ident.int 1) (Ident.str "A") ⟨2024, 1, 1⟩ 100).store
                = Ident.int 1)) ∧
    ("A" : String) ≠ "" ∧ pyInt "A" = none ∧
    (filterStage c4tab (some "A") none none
        = Except.ok (c4tab.filter (fun x => decide (x.store.pyStr = "A"))) ∧
      (Record.mk (Ident.str "7") (Ident.str "A") ⟨2024, 1, 1⟩ 1
          ∈ c4tab.filter (fun x => decide (x.store.pyStr = "A"))
        ↔ Record.mk (Ident.str "7") (Ident.str "A") ⟨2024, 1, 1⟩ 1 ∈ c4tab
            ∧ (Record.mk (Ident.str "7") (Ident.str "A") ⟨2024, 1, 1⟩ 1).store.pyStr
                = "A")) :=
  ⟨by decide, rfl,
    (c4_store_filter wtab "1" 1
      (Record.mk (Ident.int 1) (Ident.str "A") ⟨2024, 1, 1⟩ 100) (by decide)).1 rfl,
    by decide, rfl,
    (c4_store_filter c4tab "A" 0
      (Record.mk (Ident.str "7") (Ident.str "A") ⟨2024, 1, 1⟩ 1) (by decide)).2 rfl⟩

/-- C5: with no store filter, the filter stage keeps exactly the records whose
date lies within the given inclusive bounds, compared chronologically by
"dateLeB" on calendar dates; with no constraints at all it returns the full
table unchanged. -/
theorem c5_date_filter (df : List Record) (startp endp : Option String)
    (r : Record) (hs : dateParamOk startp = true)
    (he : dateParamOk endp = true) :
    filterStage df none startp endp
        = Except.ok (df.filter
            (fun x => lowerOkB (boundOf startp) x && upperOkB (boundOf endp) x)) ∧
    (r ∈ df.filter
          (fun x => lowerOkB (boundOf startp) x && upperOkB (boundOf endp) x)
      ↔ r ∈ df ∧ lowerOkB (boundOf startp) r = true
          ∧ upperOkB (boundOf endp) r = true) ∧
    filterStage df none none none = Except.ok df := by
  refine ⟨?_, ?_, rfl⟩
  · rw [filterStage_ok df none startp endp hs he]
    have hst : storeStage df none = df := rfl
    rw [hst, List.filter_filter]
    exact congrArg Except.ok (List.filter_congr (fun x _ => Bool.and_comm _ _))
  · rw [List.mem_filter]
    simp [Bool.and_eq_true, and_assoc]

/-- Witness for C5: a lower bound of 2024-01-05 on the scenario table, no
upper bound, checked on the record dated 2024-01-08. -/
theorem c5_date_filter_witness :
    dateParamOk (some "2024-01-05") = true ∧
    dateParamOk (none : Option String) = true ∧
    (filterStage wtab none (some "2024-01-05") none
        = Except.ok (wtab.filter
            (fun x => lowerOkB (boundOf (some "2024-01-05")) x
              && upperOkB (boundOf (none : Option String)) x)) ∧
      (Record.mk (Ident.int 1) (Ident.str "A") ⟨2024, 1, 8⟩ 200
          ∈ wtab.filter
            (fun x => lowerOkB (boundOf (some "2024-01-05")) x
              && upperOkB (boundOf (none : Option String)) x)
        ↔ Record.mk (Ident.int 1) (Ident.str "A") ⟨2024, 1, 8⟩ 200 ∈ wtab
            ∧ lowerOkB (boundOf (some "2024-01-05"))
                (Record.mk (Ident.int 1) (Ident.str "A") ⟨2024, 1, 8⟩ 200) = true
            ∧ upperOkB (boundOf (none : Option String))
                (Record.mk (Ident.int 1) (Ident.str "A") ⟨2024, 1, 8⟩ 200) = true) ∧
      filterStage wtab none none none = Except.ok wtab) :=
  ⟨rfl, rfl,
    c5_date_filter wtab (some "2024-01-05") none
      (Record.mk (Ident.int 1) (Ident.str "A") ⟨2024, 1, 8⟩ 200) rfl rfl⟩

/-- Counterexample for C6 as stated: a request with the malformed window
parameter "abc" (and an unknown view) makes the int() conversion raise before
anything else; the handler surfaces a server fault, not the InvalidRequest
(400) error payload the claim promises for malformed window parameters. -/
theorem c6_invalid_request_cex :
    sales [] (Args.mk none (some "bogus") none none (some "abc"))
      = Except.error
          (SalesError.serverFault "invalid literal for int with base 10") ∧
    sales [] (Args.mk none (some "bogus") none none (some "abc"))
      ≠ Except.error (SalesError.badRequest "unknown view") := by
  have h1 : sales [] (Args.mk none (some "bogus") none none (some "abc"))
      = Except.error
          (SalesError.serverFault "invalid literal for int with base 10") := rfl
  refine ⟨h1, ?_⟩
  rw [h1]
  simp

/-- C6 (amended): a request whose window and date parameters are well formed
and whose view value is unrecognized receives the InvalidRequest payload
("unknown view", status 400) and emits no rows; a malformed window or date
parameter instead escapes as an exception surfaced as a server fault. -/
theorem c6_unknown_view_bad_request (df : List Record) (a : Args) (w : Int)
    (hw : pyInt (a.window.getD "7") = some w)
    (hs : dateParamOk a.start = true) (he : dateParamOk a.dateEnd = true)
    (hv : knownView (a.view.getD "time_series") = false) :
    sales df a = Except.error (SalesError.badRequest "unknown view") := by
  unfold sales
  rw [hw, filterStage_ok df a.store a.start a.dateEnd hs he]
  simp only [knownView, Bool.or_eq_false_iff, beq_eq_false_iff_ne] at hv
  obtain ⟨⟨⟨⟨h1, h2⟩, h3⟩, h4⟩, h5⟩ := hv
  simp [dispatchView, h1, h2, h3, h4, h5]

/-- Witness for C6 (amended): the unknown view "bogus" with default window and
no date bounds. -/
theorem c6_unknown_view_bad_request_witness :
    pyInt ((Args.mk none (some "bogus") none none none).window.getD "7")
        = some 7 ∧
    dateParamOk (Args.mk none (some "bogus") none none none).start = true ∧
    dateParamOk (Args.mk none (some "bogus") none none none).dateEnd = true ∧
    knownView ((Args.mk none (some "bogus") none none none).view.getD
        "time_series") = false ∧
    sales [] (Args.mk none (some "bogus") none none none)
      = Except.error (SalesError.badRequest "unknown view") :=
  ⟨rfl, rfl, rfl, rfl,
    c6_unknown_view_bad_request [] (Args.mk none (some "bogus") none none none)
      7 rfl rfl rfl rfl⟩
